import Mathlib

/-!
Verification of the claudedidwhat Automation API service specification.

The repository ships the test suite for `AutomationApiService`
(`tests/unit/main/services/pty-manager.test.ts`, second half) but the
implementation file `src/main/services/automation-api.ts` itself is not
present in the source tree; the service is therefore modelled from the
specification, faithful to its words, and checked against the properties
the spec and the tests state.  The older `ApiServer`
(`src/main/services/api-server.ts`) *is* present and its pending-request
bookkeeping is embedded directly from that source.
-/

namespace Claudedidwhat

/-! ## JSON values

Modelled from the spec: the automation config file and request bodies are
"structured data" (JSON).  A number is either an integer or not; the
validator only ever asks `Number.isInteger`. -/

inductive Json where
  | null
  | bool (b : Bool)
  | int (n : Int)
  | nonIntNum
  | str (s : String)
  | arr (elems : List Json)
  | obj (fields : List (String × Json))

/-! ## Automation config (Config Store)

Modelled from the spec: `src/main/services/automation-api.ts` is missing
from the tree; §4.1 of the spec (Config Store) and the config-validation
tests describe `load()`/validation. -/

structure AutomationConfig where
  version : Int
  enabled : Bool
  allowedRoots : List String
  maxCommands : Int
  maxCommandLength : Int
  maxRequestBytes : Int
  requestTimeoutMs : Int
  rateLimitPerMinute : Int
deriving DecidableEq, Repr

/-- The recognized top-level config keys (spec §4.1). -/
def recognizedKeys : List String :=
  ["version", "enabled", "allowedRoots", "maxCommands", "maxCommandLength",
   "maxRequestBytes", "requestTimeoutMs", "rateLimitPerMinute"]

/-- String helpers over the character list (the form the proofs and
witnesses can evaluate). -/
def strStartsWith (s pre : String) : Bool := pre.data.isPrefixOf s.data

def strDrop (s : String) (n : Nat) : String := { data := s.data.drop n }

/-- A path is absolute when it starts with the path separator. -/
def isAbsolutePath (p : String) : Bool := strStartsWith p "/"

/-- One de-duplication step: append the entry unless already kept. -/
def dedupStep (acc : List String) (x : String) : List String :=
  if x ∈ acc then acc else acc ++ [x]

/-- De-duplicate, keeping the order of first occurrence (spec §3). -/
def dedupFirst (xs : List String) : List String :=
  xs.foldl dedupStep []

/-- Config contains a key outside the recognized set. -/
def hasUnknownKey (fields : List (String × Json)) : Bool :=
  fields.any (fun kv => !(recognizedKeys.contains kv.1))

/-- The `version` field is present and exactly the integer 1. -/
def versionIs1 (fields : List (String × Json)) : Bool :=
  match List.lookup "version" fields with
  | some (.int 1) => true
  | _ => false

/-- The `enabled` field is present and a boolean. -/
def enabledIsBool (fields : List (String × Json)) : Bool :=
  match List.lookup "enabled" fields with
  | some (.bool _) => true
  | _ => false

/-- The `enabled` value once known to be a boolean. -/
def getEnabled (fields : List (String × Json)) : Bool :=
  match List.lookup "enabled" fields with
  | some (.bool b) => b
  | _ => false

/-- The `allowedRoots` field is present and an array. -/
def rootsIsArray (fields : List (String × Json)) : Bool :=
  match List.lookup "allowedRoots" fields with
  | some (.arr _) => true
  | _ => false

/-- The raw `allowedRoots` array elements (empty if absent or not an array). -/
def rootsElems (fields : List (String × Json)) : List Json :=
  match List.lookup "allowedRoots" fields with
  | some (.arr elems) => elems
  | _ => []

/-- Every `allowedRoots` entry is a non-empty string. -/
def rootEntriesAreStrings (elems : List Json) : Bool :=
  elems.all (fun e => match e with
    | .str s => s != ""
    | _ => false)

/-- Every `allowedRoots` entry is an absolute path (checked on strings). -/
def rootEntriesAreAbsolute (elems : List Json) : Bool :=
  elems.all (fun e => match e with
    | .str s => isAbsolutePath s
    | _ => true)

/-- Extract the string entries of `allowedRoots`. -/
def rootStrings (elems : List Json) : List String :=
  elems.filterMap (fun e => match e with
    | .str s => some s
    | _ => none)

/-- A numeric field holds an integer within `[1, maxVal]`. -/
def numFieldOk (fields : List (String × Json)) (key : String) (maxVal : Int) : Bool :=
  match List.lookup key fields with
  | some (.int n) => 1 ≤ n && n ≤ maxVal
  | _ => false

/-- A numeric field is present and an integer (distinguishes the
"must be an integer" message from the range message). -/
def numFieldIsInt (fields : List (String × Json)) (key : String) : Bool :=
  match List.lookup key fields with
  | some (.int _) => true
  | _ => false

/-- The integer value of a numeric field (0 if absent or non-integer). -/
def getNum (fields : List (String × Json)) (key : String) : Int :=
  match List.lookup key fields with
  | some (.int n) => n
  | _ => 0

/-- The five bounded numeric config fields with their maxima (spec §4.1). -/
def numericFieldMax : List (String × Int) :=
  [("maxCommands", 200), ("maxCommandLength", 16384),
   ("maxRequestBytes", 2 * 1024 * 1024), ("requestTimeoutMs", 120000),
   ("rateLimitPerMinute", 1000)]

/-- Check one numeric field, producing the descriptive errors of the spec. -/
def checkNumField (fields : List (String × Json)) (key : String) (maxVal : Int) :
    Except String Unit :=
  if !(numFieldIsInt fields key) then .error (key ++ " must be an integer")
  else if !(numFieldOk fields key maxVal) then
    .error (key ++ " must be between 1 and " ++ toString maxVal)
  else .ok ()

/-- Check a list of numeric fields in order, stopping at the first error. -/
def checkNumList (fields : List (String × Json)) :
    List (String × Int) → Except String Unit
  | [] => .ok ()
  | km :: rest =>
    match checkNumField fields km.1 km.2 with
    | .error e => .error e
    | .ok _ => checkNumList fields rest

/-- Check all five numeric fields in order. -/
def checkNumFields (fields : List (String × Json)) : Except String Unit :=
  checkNumList fields numericFieldMax

/-- Modelled from the spec: `validateConfig` of the missing
`src/main/services/automation-api.ts`, per spec §4.1 — reject non-objects,
unknown keys, a version other than 1, a non-boolean `enabled`, a malformed
`allowedRoots`, out-of-spec numeric fields, and `enabled` with no roots;
on success de-duplicate `allowedRoots`. -/
def validateConfig (j : Json) : Except String AutomationConfig :=
  match j with
  | .obj fields =>
    if hasUnknownKey fields then .error "config contains an unknown key"
    else if !(versionIs1 fields) then .error "version must be 1"
    else if !(enabledIsBool fields) then .error "enabled must be a boolean"
    else if !(rootsIsArray fields) then .error "allowedRoots must be an array"
    else if !(rootEntriesAreStrings (rootsElems fields)) then
      .error "allowedRoots entries must be non-empty strings"
    else if !(rootEntriesAreAbsolute (rootsElems fields)) then
      .error "allowedRoots entries must be an absolute path"
    else
      match checkNumFields fields with
      | .error e => .error e
      | .ok _ =>
        if getEnabled fields && (rootsElems fields).isEmpty then
          .error "allowedRoots must contain at least one path"
        else
          .ok { version := 1
              , enabled := getEnabled fields
              , allowedRoots := dedupFirst (rootStrings (rootsElems fields))
              , maxCommands := getNum fields "maxCommands"
              , maxCommandLength := getNum fields "maxCommandLength"
              , maxRequestBytes := getNum fields "maxRequestBytes"
              , requestTimeoutMs := getNum fields "requestTimeoutMs"
              , rateLimitPerMinute := getNum fields "rateLimitPerMinute" }
  | _ => .error "config must be a JSON object"

/-- The flat disjunction of schema violations listed by the spec (§4.1). -/
def configViolation (j : Json) : Bool :=
  match j with
  | .obj fields =>
    hasUnknownKey fields
    || !(versionIs1 fields)
    || !(enabledIsBool fields)
    || !(rootsIsArray fields)
    || !(rootEntriesAreStrings (rootsElems fields))
    || !(rootEntriesAreAbsolute (rootsElems fields))
    || numericFieldMax.any (fun km => !(numFieldOk fields km.1 km.2))
    || (getEnabled fields && (rootsElems fields).isEmpty)
  | _ => true

/-! ## Filesystem Security Guard (spec §4.2)

Modelled from the spec: the guard of the missing
`src/main/services/automation-api.ts`.  The filesystem is abstracted as
the two queries the guard issues: "is this path an existing directory"
and "what is the canonical real path" (all symlinks resolved; `none`
when the path cannot be resolved). -/

structure FileSystem where
  isDirectory : String → Bool
  realpath : String → Option String

/-- Outcome of path authorization (spec §4.2 and pipeline gate 9). -/
inductive PathAuth where
  | allowed
  | badRequest
  | forbidden
  | unavailable
deriving DecidableEq, Repr

/-- Whether `child` equals `root` or is a path-separator-bounded descendant of it. -/
def isPathWithin (child root : String) : Bool :=
  child == root || strStartsWith child (root ++ "/")

/-- One allowed root, canonicalized, admits the canonical cwd. -/
def rootAdmits (fs : FileSystem) (canon : String) (root : String) : Bool :=
  match fs.realpath root with
  | some canonRoot => isPathWithin canon canonRoot
  | none => false

/-- Modelled from the spec: `assertPathAllowed(cwd, allowedRoots)` of the
missing `src/main/services/automation-api.ts` (spec §4.2): empty
`allowedRoots` is answered with a service-unavailable signal; a cwd that
is not an absolute path to an existing directory is a bad request;
otherwise both sides are canonicalized and the request is allowed only
when the canonical cwd is equal to or a separator-bounded descendant of
some canonical allowed root. -/
def assertPathAllowed (fs : FileSystem) (cwd : String) (allowedRoots : List String) :
    PathAuth :=
  if allowedRoots.isEmpty then .unavailable
  else if !(isAbsolutePath cwd && fs.isDirectory cwd) then .badRequest
  else
    match fs.realpath cwd with
    | none => .badRequest
    | some canon =>
      if allowedRoots.any (rootAdmits fs canon) then .allowed else .forbidden

/-! ## Rate Limiter (spec §4.4)

Modelled from the spec: one fixed 60 000 ms window per running instance;
the counter and window start reset before counting once the window age
reaches 60 000 ms; requests beyond `rateLimitPerMinute` in the current
window are rejected. -/

structure RateState where
  count : Nat
  windowStart : Nat
deriving DecidableEq, Repr

def RateState.init : RateState := { count := 0, windowStart := 0 }

/-- Modelled from the spec: the rate gate of the missing
`src/main/services/automation-api.ts` (spec §4.4). Returns whether the
request is admitted together with the next limiter state. -/
def rateCheck (limit : Int) (now : Nat) (s : RateState) : Bool × RateState :=
  let s2 := if 60000 ≤ now - s.windowStart then
      { count := 0, windowStart := now } else s
  if (s2.count : Int) < limit then (true, { s2 with count := s2.count + 1 })
  else (false, s2)

/-- Run the limiter over a list of request times. -/
def runRate (limit : Int) : List Nat → RateState → List Bool × RateState
  | [], s => ([], s)
  | t :: ts, s =>
    let r := rateCheck limit t s
    let rest := runRate limit ts r.2
    (r.1 :: rest.1, rest.2)

/-! ## HTTP request pipeline (spec §4.5) and Bootstrap Executor (spec §4.6)

Modelled from the spec: the per-request handler of the missing
`src/main/services/automation-api.ts`.  Header names are stored
lowercased (the HTTP layer lowercases incoming header names); the body
is abstracted as its byte length plus its parse result (`none` when it
is not valid JSON). -/

structure HttpRequest where
  method : String
  path : String
  headers : List (String × String)
  bodyLen : Nat
  bodyJson : Option Json

inductive ResponseBody where
  | errorMsg (msg : String)
  | sessionIdBody (sid : String)
deriving DecidableEq, Repr

structure HttpResponse where
  status : Nat
  headers : List (String × String)
  body : ResponseBody
deriving DecidableEq, Repr

/-- The headers stamped on every response (spec §4.5, last paragraph). -/
def stdHeaders : List (String × String) :=
  [("Content-Type", "application/json; charset=utf-8"),
   ("Cache-Control", "no-store"),
   ("X-Content-Type-Options", "nosniff")]

/-- Build a response through the single response helper: every exit of the
pipeline goes through this. -/
def respond (status : Nat) (body : ResponseBody) : HttpResponse :=
  { status := status, headers := stdHeaders, body := body }

def headerValue (req : HttpRequest) (name : String) : Option String :=
  List.lookup name req.headers

/-- Gate 2: `Authorization: Bearer <token>` equal to the live token. -/
def authOk (token : String) (req : HttpRequest) : Bool :=
  match headerValue req "authorization" with
  | some a => strStartsWith a "Bearer " && (strDrop a 7 == token) && token != ""
  | none => false

/-- Gate 3: an `Origin` header or any `Sec-Fetch-*` header marks a
browser-originated request. -/
def browserIndicators (req : HttpRequest) : Bool :=
  (headerValue req "origin").isSome
  || req.headers.any (fun kv => strStartsWith kv.1 "sec-fetch-")

/-- Gate 4: a non-empty client-identifier header of at most 128 chars. -/
def clientIdOk (req : HttpRequest) : Bool :=
  match headerValue req "x-cdw-client" with
  | some c => c != "" && c.length ≤ 128
  | none => false

/-- Gate 5: `Content-Type` is `application/json`, optionally with a
trailing parameter. -/
def contentTypeOk (req : HttpRequest) : Bool :=
  match headerValue req "content-type" with
  | some ct => ct == "application/json" || strStartsWith ct "application/json;"
  | none => false

/-- The validated bootstrap payload (spec §3, BootstrapRequest). -/
structure BootstrapRequest where
  cwd : String
  commands : List String
deriving DecidableEq, Repr

/-- Gate 8 helpers: the payload object must have exactly the keys
`cwd` and `commands`. -/
def payloadKeysOk (fields : List (String × Json)) : Bool :=
  fields.all (fun kv => kv.1 == "cwd" || kv.1 == "commands")

def payloadCwd (fields : List (String × Json)) : Option String :=
  match List.lookup "cwd" fields with
  | some (.str s) => some s
  | _ => none

def payloadCommands (fields : List (String × Json)) : Option (List Json) :=
  match List.lookup "commands" fields with
  | some (.arr xs) => some xs
  | _ => none

def commandStrings (xs : List Json) : Option (List String) :=
  xs.mapM (fun e => match e with
    | .str s => some s
    | _ => none)

/-- Modelled from the spec: payload validation (gate 8) of the missing
`src/main/services/automation-api.ts`: exactly the keys `cwd` and
`commands`; `cwd` a non-empty absolute path; `commands` a non-empty
array of at most `maxCommands` non-empty strings each no longer than
`maxCommandLength`. -/
def validatePayload (cfg : AutomationConfig) (j : Json) :
    Except String BootstrapRequest :=
  match j with
  | .obj fields =>
    if !(payloadKeysOk fields) then .error "unknown key in request body"
    else
      match payloadCwd fields with
      | none => .error "cwd must be a string"
      | some cwd =>
        if cwd == "" then .error "cwd must be a non-empty string"
        else if !(isAbsolutePath cwd) then .error "cwd must be an absolute path"
        else
          match payloadCommands fields with
          | none => .error "commands must be an array"
          | some xs =>
            if xs.isEmpty then .error "commands must be non-empty"
            else if (xs.length : Int) > cfg.maxCommands then
              .error "commands exceeds maxCommands"
            else
              match commandStrings xs with
              | none => .error "commands entries must be strings"
              | some cmds =>
                if cmds.any (fun c => c == "") then
                  .error "commands entries must be non-empty"
                else if cmds.any (fun c => (c.length : Int) > cfg.maxCommandLength) then
                  .error "command exceeds maxCommandLength"
                else .ok { cwd := cwd, commands := cmds }
  | _ => .error "request body must be a JSON object"

/-- How the collaborator call behaves relative to the start of the race:
it settles (fulfilled or rejected) after `t` milliseconds, or never. -/
inductive CollabOutcome where
  | resolves (t : Nat) (sessionId : String)
  | rejects (t : Nat) (msg : String)
  | never
deriving DecidableEq, Repr

/-- Whether the executor consumed the collaborator result or abandoned
the still-running call (without cancelling it). -/
inductive CollabFate where
  | consumed
  | abandoned
deriving DecidableEq, Repr

/-- Modelled from the spec: the Bootstrap Executor (spec §4.6) of the
missing `src/main/services/automation-api.ts`: race the collaborator
against a timer set to `requestTimeoutMs`; 201 with the session id if it
resolves first, 500 with its message if it rejects first, 504 when the
timer fires first, abandoning (not cancelling) the in-flight call. -/
def executeBootstrap (timeoutMs : Int) (outcome : CollabOutcome) :
    HttpResponse × CollabFate :=
  match outcome with
  | .resolves t sid =>
    if (t : Int) < timeoutMs then (respond 201 (.sessionIdBody sid), .consumed)
    else (respond 504 (.errorMsg "Bootstrap timed out"), .abandoned)
  | .rejects t msg =>
    if (t : Int) < timeoutMs then (respond 500 (.errorMsg msg), .consumed)
    else (respond 504 (.errorMsg "Bootstrap timed out"), .abandoned)
  | .never => (respond 504 (.errorMsg "Bootstrap timed out"), .abandoned)

/-- Server-side context a request is handled against. -/
structure ServerCtx where
  token : String
  config : AutomationConfig
  fs : FileSystem

/-- Modelled from the spec: the ordered, short-circuiting gate sequence of
§4.5 (routing → auth → anti-browser → client id → content negotiation →
rate limiting → body admission → payload validation → path
authorization) followed by the Bootstrap Executor, of the missing
`src/main/services/automation-api.ts`.  Returns the response, the next
rate-limiter state, and the fate the executor assigns the collaborator call
(`none` when the collaborator was never invoked). -/
def handleRequest (ctx : ServerCtx) (now : Nat) (rate : RateState)
    (req : HttpRequest) (collab : CollabOutcome) :
    HttpResponse × RateState × Option CollabFate :=
  if req.path != "/v1/terminal/bootstrap" then
    (respond 404 (.errorMsg "Not found"), rate, none)
  else if req.method != "POST" then
    (respond 405 (.errorMsg "Method not allowed"), rate, none)
  else if !(authOk ctx.token req) then
    (respond 401 (.errorMsg "Unauthorized"), rate, none)
  else if browserIndicators req then
    (respond 403 (.errorMsg "Browser requests are forbidden"), rate, none)
  else if !(clientIdOk req) then
    (respond 400 (.errorMsg "X-CDW-Client header required"), rate, none)
  else if !(contentTypeOk req) then
    (respond 415 (.errorMsg "Content-Type must be application/json"), rate, none)
  else
    match rateCheck ctx.config.rateLimitPerMinute now rate with
    | (false, rate2) => (respond 429 (.errorMsg "Too many requests"), rate2, none)
    | (true, rate2) =>
      if (req.bodyLen : Int) > ctx.config.maxRequestBytes then
        (respond 413 (.errorMsg "Request body too large"), rate2, none)
      else
        match req.bodyJson with
        | none => (respond 400 (.errorMsg "Invalid JSON"), rate2, none)
        | some j =>
          match validatePayload ctx.config j with
          | .error msg => (respond 400 (.errorMsg msg), rate2, none)
          | .ok payload =>
            match assertPathAllowed ctx.fs payload.cwd ctx.config.allowedRoots with
            | .unavailable =>
              (respond 503 (.errorMsg "No allowed roots configured"), rate2, none)
            | .badRequest =>
              (respond 400 (.errorMsg "cwd is not an existing directory"), rate2, none)
            | .forbidden =>
              (respond 403 (.errorMsg "cwd outside allowed roots"), rate2, none)
            | .allowed =>
              match executeBootstrap ctx.config.requestTimeoutMs collab with
              | (resp2, fate) => (resp2, rate2, some fate)

/-! ## Credential & Lifecycle Manager (spec §4.3)

Modelled from the spec: the lifecycle of the missing
`src/main/services/automation-api.ts`. -/

structure Credentials where
  host : String
  port : Nat
  token : String
deriving DecidableEq, Repr

/-- The environment `start()` runs against: the symlink status of the three
guarded paths, the config file (absent / unparseable / parsed), and what
the generator would produce if a listener is opened. -/
structure StartEnv where
  dirIsSymlink : Bool
  configIsSymlink : Bool
  credsIsSymlink : Bool
  configFile : Option (Option Json)
  newCreds : Credentials

inductive StartError where
  | symlinkRejected (which : String)
  | configParseError
  | configInvalid (msg : String)
deriving DecidableEq, Repr

/-- The externally visible side effects of `start()`, in order. -/
inductive FsEffect where
  | readConfig
  | writeDefaultConfig
  | writeCreds
  | deleteCreds
  | openListener
deriving DecidableEq, Repr

structure StartOutcome where
  result : Except StartError (Option Credentials)
  effects : List FsEffect

/-- Modelled from the spec: `start()` of the missing
`src/main/services/automation-api.ts` (spec §4.2 and §4.3): before any
read or write, inspect the link status of the automation directory, its
config file and its credential file; a symlink aborts with a
symlink-rejection error.  Then load/validate the config (absent → write
a default, disabled); when disabled clear credentials and delete the
stale credential file; when enabled open a listener, generate
credentials and write them. -/
def start (env : StartEnv) : StartOutcome :=
  if env.dirIsSymlink then
    ⟨.error (.symlinkRejected "automation directory"), []⟩
  else if env.configIsSymlink then
    ⟨.error (.symlinkRejected "config file"), []⟩
  else if env.credsIsSymlink then
    ⟨.error (.symlinkRejected "credentials file"), []⟩
  else
    match env.configFile with
    | none => ⟨.ok none, [.writeDefaultConfig, .deleteCreds]⟩
    | some none => ⟨.error .configParseError, [.readConfig]⟩
    | some (some j) =>
      match validateConfig j with
      | .error msg => ⟨.error (.configInvalid msg), [.readConfig]⟩
      | .ok cfg =>
        if cfg.enabled then
          ⟨.ok (some env.newCreds), [.readConfig, .openListener, .writeCreds]⟩
        else
          ⟨.ok none, [.readConfig, .deleteCreds]⟩

/-- The running service state as the lifecycle operations see it:
the persisted config, the in-memory credentials, the on-disk credential
file, and the rate-limiter state. -/
structure ServiceState where
  config : AutomationConfig
  creds : Option Credentials
  credFileExists : Bool
  rate : RateState
deriving DecidableEq, Repr

/-- Status report: `getStatus()` reports enabled only when the persisted config says
enabled and live credentials currently exist (spec §4.3). -/
def getStatus (s : ServiceState) : Bool :=
  s.config.enabled && s.creds.isSome

/-- Modelled from the spec: `stop()` of the missing
`src/main/services/automation-api.ts` (spec §4.3): close the listener,
clear in-memory credentials, delete the credential file, clear the
rate-limiter state. -/
def stopService (s : ServiceState) : ServiceState :=
  { s with creds := none, credFileExists := false, rate := RateState.init }

/-- The runtime half of `start()` on an already validated in-memory
config: open a listener and install fresh credentials when enabled,
otherwise clear them. -/
def startRuntime (gen : Credentials) (s : ServiceState) : ServiceState :=
  if s.config.enabled then { s with creds := some gen, credFileExists := true }
  else { s with creds := none, credFileExists := false }

/-- Modelled from the spec: `setEnabled(next)` of the missing
`src/main/services/automation-api.ts` (spec §4.3): persist
`enabled = next`; if the current running state does not match `next`,
start or stop accordingly; if already in the requested state it is a
no-op that still reports the current status. -/
def setEnabled (gen : Credentials) (s : ServiceState) (next : Bool) :
    ServiceState × Bool :=
  let s1 : ServiceState := { s with config := { s.config with enabled := next } }
  if s1.creds.isSome == next then (s1, getStatus s1)
  else if next then
    let s2 := startRuntime gen s1
    (s2, getStatus s2)
  else
    let s2 := stopService s1
    (s2, getStatus s2)

/-! ## Gate-pass predicates and sample inputs -/

/-- The gates before body admission (routing, auth, anti-browser, client
identification, content negotiation, rate limiting) all pass. -/
def preBodyGatesPass (ctx : ServerCtx) (now : Nat) (rate : RateState)
    (req : HttpRequest) : Prop :=
  req.path = "/v1/terminal/bootstrap" ∧ req.method = "POST" ∧
  authOk ctx.token req = true ∧ browserIndicators req = false ∧
  clientIdOk req = true ∧ contentTypeOk req = true ∧
  (rateCheck ctx.config.rateLimitPerMinute now rate).1 = true

/-- All nine pipeline gates pass: the request is fully validated and
reaches the Bootstrap Executor. -/
def gatesPass (ctx : ServerCtx) (now : Nat) (rate : RateState)
    (req : HttpRequest) : Prop :=
  preBodyGatesPass ctx now rate req ∧
  (req.bodyLen : Int) ≤ ctx.config.maxRequestBytes ∧
  ∃ j payload, req.bodyJson = some j ∧
    validatePayload ctx.config j = .ok payload ∧
    assertPathAllowed ctx.fs payload.cwd ctx.config.allowedRoots = .allowed

/-- A small concrete filesystem for witnesses: two real directories. -/
def sampleFs : FileSystem :=
  { isDirectory := fun p => p == "/tmp/work" || p == "/tmp/work/sub"
  , realpath := fun p =>
      if p == "/tmp/work" || p == "/tmp/work/sub" then some p else none }

def sampleConfig : AutomationConfig :=
  { version := 1, enabled := true, allowedRoots := ["/tmp/work"]
  , maxCommands := 25, maxCommandLength := 4096, maxRequestBytes := 262144
  , requestTimeoutMs := 20000, rateLimitPerMinute := 60 }

def sampleCtx : ServerCtx :=
  { token := "tok", config := sampleConfig, fs := sampleFs }

def sampleHeaders : List (String × String) :=
  [("authorization", "Bearer tok"), ("x-cdw-client", "test-client"),
   ("content-type", "application/json")]

def sampleBody : Json :=
  .obj [("cwd", .str "/tmp/work"), ("commands", .arr [.str "echo hello"])]

def sampleReq : HttpRequest :=
  { method := "POST", path := "/v1/terminal/bootstrap"
  , headers := sampleHeaders, bodyLen := 40, bodyJson := some sampleBody }

def sampleJsonConfig : Json :=
  .obj [("version", .int 1), ("enabled", .bool true),
        ("allowedRoots", .arr [.str "/tmp/work", .str "/tmp/work"]),
        ("maxCommands", .int 25), ("maxCommandLength", .int 4096),
        ("maxRequestBytes", .int 262144), ("requestTimeoutMs", .int 20000),
        ("rateLimitPerMinute", .int 60)]

def sampleCreds : Credentials :=
  { host := "127.0.0.1", port := 45123, token := "tok" }

def sampleService : ServiceState :=
  { config := sampleConfig, creds := none, credFileExists := false
  , rate := RateState.init }

/-- A start environment whose config file path is a symlink. -/
def symlinkedEnv : StartEnv :=
  { dirIsSymlink := false, configIsSymlink := true, credsIsSymlink := false
  , configFile := some (some sampleJsonConfig), newCreds := sampleCreds }

/-- A request whose body length exceeds the sample 262 144-byte limit. -/
def oversizedReq : HttpRequest := { sampleReq with bodyLen := 300000 }

/-- A filesystem where a symlink inside the allowed root escapes it:
`/tmp/work/link-out/project` canonicalizes to `/tmp/outside/project`. -/
def escapeFs : FileSystem :=
  { isDirectory := fun p => p == "/tmp/work" || p == "/tmp/work/link-out/project"
  , realpath := fun p =>
      if p == "/tmp/work" then some "/tmp/work"
      else if p == "/tmp/work/link-out/project" then some "/tmp/outside/project"
      else none }

/-- A start environment whose config file is present but unparseable. -/
def unparseableEnv : StartEnv :=
  { symlinkedEnv with configIsSymlink := false, configFile := some none }

/-- A config JSON with a duplicated root and one with a bad version. -/
def badVersionConfig : Json :=
  .obj [("version", .int 2), ("enabled", .bool false),
        ("allowedRoots", .arr []), ("maxCommands", .int 25),
        ("maxCommandLength", .int 4096), ("maxRequestBytes", .int 262144),
        ("requestTimeoutMs", .int 20000), ("rateLimitPerMinute", .int 60)]

end Claudedidwhat

/-! ## ApiServer pending-request bookkeeping

Embedded from `src/main/services/api-server.ts`: the `pendingRequests`
map and the operations that complete pending session-creation requests.
The `Map<string, PendingSessionRequest>` is represented as an
association list with unique keys; invoking a stored continuation is
represented as an emitted event, and `clearTimeout` likewise. -/

namespace ApiServer

inductive Event where
  | timerCleared (timerId : Nat)
  | resolved (requestId : String) (sessionId : String)
  | rejected (requestId : String) (msg : String)
deriving DecidableEq, Repr

/-- The server state relevant to pending requests:
`pendingRequests : Map<string, { resolve, reject, timer }>`, keeping
only the timer id (the continuations become events). -/
structure St where
  pendingRequests : List (String × Nat)
deriving DecidableEq, Repr

def lookupPending (s : St) (requestId : String) : Option Nat :=
  List.lookup requestId s.pendingRequests

def deletePending (s : St) (requestId : String) : St :=
  { pendingRequests := s.pendingRequests.filter (fun kv => kv.1 != requestId) }

/-- From `resolveSessionRequest` (api-server.ts:76): look the id up; when
present, clear its timer, delete the id from the map, then invoke the
stored `resolve`; when absent, do nothing. -/
def resolveSessionRequest (s : St) (requestId : String) (sessionId : String) :
    St × List Event :=
  match lookupPending s requestId with
  | some timerId =>
    (deletePending s requestId,
     [.timerCleared timerId, .resolved requestId sessionId])
  | none => (s, [])

/-- From `rejectSessionRequest` (api-server.ts:85): same shape, invoking the
stored `reject` with the error message. -/
def rejectSessionRequest (s : St) (requestId : String) (msg : String) :
    St × List Event :=
  match lookupPending s requestId with
  | some timerId =>
    (deletePending s requestId,
     [.timerCleared timerId, .rejected requestId msg])
  | none => (s, [])

/-- The two effects `stop` performs for one pending entry: clear its
timer, then reject it with "Server shutting down". -/
def stopEvents (kv : String × Nat) : List Event :=
  [.timerCleared kv.2, .rejected kv.1 "Server shutting down"]

/-- From `stop` (api-server.ts:62): clear every pending request timer and
reject it with "Server shutting down", then clear the map. -/
def stop (s : St) : St × List Event :=
  (⟨[]⟩, s.pendingRequests.flatMap stopEvents)

/-- From `requestSessionCreation` (api-server.ts:222): registers a pending
request under a fresh id (`Map.set` appends in insertion order). -/
def registerPending (s : St) (requestId : String) (timerId : Nat) : St :=
  { pendingRequests := s.pendingRequests ++ [(requestId, timerId)] }

/-- The completion events an event list carries for a given request id. -/
def completionsFor (requestId : String) (events : List Event) : List Event :=
  events.filter (fun e => match e with
    | .resolved i _ => i == requestId
    | .rejected i _ => i == requestId
    | .timerCleared _ => false)

/-- A sample pending map with two requests. -/
def samplePending : St := ⟨[("req-1", 11), ("req-2", 12)]⟩

end ApiServer

namespace Claudedidwhat

/-! ## Theorems -/

/-- C4: for every incoming HTTP request, only `POST /v1/terminal/bootstrap`
is recognized: any other path is answered 404, the known path with any
method other than POST is answered 405, and no other route is served. -/
theorem routing_only_bootstrap (ctx : ServerCtx) (now : Nat) (rate : RateState)
    (req : HttpRequest) (collab : CollabOutcome) :
    (req.path ≠ "/v1/terminal/bootstrap" →
      (handleRequest ctx now rate req collab).1 =
        respond 404 (.errorMsg "Not found")) ∧
    (req.path = "/v1/terminal/bootstrap" → req.method ≠ "POST" →
      (handleRequest ctx now rate req collab).1 =
        respond 405 (.errorMsg "Method not allowed")) := by
  constructor
  · intro h
    simp [handleRequest, h]
  · intro hp hm
    simp [handleRequest, hp, hm]

/-- Witness for C4 at concrete requests: a wrong path is answered 404 and
a GET on the bootstrap path is answered 405. -/
theorem routing_only_bootstrap_witness :
    (handleRequest sampleCtx 0 RateState.init
        { sampleReq with path := "/v1/other/path" } CollabOutcome.never).1 =
      respond 404 (.errorMsg "Not found") ∧
    (handleRequest sampleCtx 0 RateState.init
        { sampleReq with method := "GET" } CollabOutcome.never).1 =
      respond 405 (.errorMsg "Method not allowed") :=
  ⟨(routing_only_bootstrap sampleCtx 0 RateState.init
      { sampleReq with path := "/v1/other/path" } CollabOutcome.never).1
      (by decide),
   (routing_only_bootstrap sampleCtx 0 RateState.init
      { sampleReq with method := "GET" } CollabOutcome.never).2
      (by decide) (by decide)⟩

set_option maxHeartbeats 2000000 in
/-- Every pipeline exit is a `respond` call whose status and body shape
are correlated: 201 with a session id body, anything else with an error
body. -/
lemma handleRequest_shape (ctx : ServerCtx) (now : Nat) (rate : RateState)
    (req : HttpRequest) (collab : CollabOutcome) :
    ∃ st b, (handleRequest ctx now rate req collab).1 = respond st b ∧
      ((st = 201 ∧ ∃ sid, b = ResponseBody.sessionIdBody sid) ∨
       (st ≠ 201 ∧ ∃ m, b = ResponseBody.errorMsg m)) := by
  simp only [handleRequest, executeBootstrap]
  repeat' split
  all_goals exact ⟨_, _, rfl, by simp⟩

/-- C8: every response produced at any pipeline gate carries the three
standard headers (`Content-Type: application/json; charset=utf-8`,
`Cache-Control: no-store`, `X-Content-Type-Options: nosniff`), and its
body is `{ sessionId }`-shaped exactly when the status is 201 and
`{ error }`-shaped otherwise. -/
theorem response_format_invariant (ctx : ServerCtx) (now : Nat)
    (rate : RateState) (req : HttpRequest) (collab : CollabOutcome) :
    (handleRequest ctx now rate req collab).1.headers = stdHeaders ∧
    ((handleRequest ctx now rate req collab).1.status = 201 ↔
      ∃ sid, (handleRequest ctx now rate req collab).1.body =
        ResponseBody.sessionIdBody sid) := by
  obtain ⟨st, b, h1, h2⟩ := handleRequest_shape ctx now rate req collab
  rw [h1]
  rcases h2 with ⟨rfl, sid, rfl⟩ | ⟨hne, m, rfl⟩
  · simp [respond]
  · simp [respond, hne]

/-- C2: when the automation directory, the config file, or the
credentials file is a symbolic link, `start()` fails with a
symlink-specific error and performs no effect at all: nothing is read or
written through the link and no listener is opened. -/
theorem start_symlink_guard (env : StartEnv)
    (h : env.dirIsSymlink = true ∨ env.configIsSymlink = true ∨
      env.credsIsSymlink = true) :
    (∃ w, (start env).result = .error (.symlinkRejected w)) ∧
    (start env).effects = [] := by
  unfold start
  rcases h with h | h | h <;> simp [h] <;>
    (repeat' split) <;> simp

/-- Witness for C2: a symlinked config file aborts `start()` with the
symlink error and no effects. -/
theorem start_symlink_guard_witness :
    (∃ w, (start symlinkedEnv).result = .error (.symlinkRejected w)) ∧
    (start symlinkedEnv).effects = [] :=
  start_symlink_guard symlinkedEnv (Or.inr (Or.inl rfl))

/-- C9: `setEnabled` is idempotent — after `setEnabled(x)`, a second
`setEnabled(x)` (even with a different credential generator) changes
neither the state (config, in-memory credentials, credential file, rate
state) nor the reported status; and a `setEnabled(x)` issued while the
config already says `x` and the runtime already matches `x` is a no-op
that still reports the current status. -/
theorem setEnabled_idempotent (s : ServiceState) (x : Bool)
    (g g2 : Credentials) :
    (setEnabled g2 (setEnabled g s x).1 x =
      ((setEnabled g s x).1, (setEnabled g s x).2)) ∧
    (s.creds.isSome = x → s.config.enabled = x →
      setEnabled g s x = (s, getStatus s)) := by
  obtain ⟨⟨v, en, ar, mc, mcl, mrb, rtm, rlpm⟩, creds, cfe, rate⟩ := s
  constructor
  · cases x <;> cases creds <;>
      simp [setEnabled, startRuntime, stopService, getStatus]
  · intro h1 h2
    cases x <;> cases creds <;> simp_all [setEnabled, getStatus]

/-- Witness for C9: enabling twice from the sample state reaches the same
state and status as enabling once; and the no-op case reports status. -/
theorem setEnabled_idempotent_witness :
    (setEnabled sampleCreds (setEnabled sampleCreds sampleService true).1 true =
      ((setEnabled sampleCreds sampleService true).1,
       (setEnabled sampleCreds sampleService true).2)) ∧
    setEnabled sampleCreds { sampleService with creds := some sampleCreds } true =
      ({ sampleService with creds := some sampleCreds },
       getStatus { sampleService with creds := some sampleCreds }) :=
  ⟨(setEnabled_idempotent sampleService true sampleCreds sampleCreds).1,
   (setEnabled_idempotent { sampleService with creds := some sampleCreds }
      true sampleCreds sampleCreds).2 rfl rfl⟩

/-- A fully validated request reaches the Bootstrap Executor: the
response and the collaborator fate are exactly those of the executor. -/
lemma handleRequest_validated (ctx : ServerCtx) (now : Nat)
    (rate : RateState) (req : HttpRequest)
    (h : gatesPass ctx now rate req) (collab : CollabOutcome) :
    (handleRequest ctx now rate req collab).1 =
      (executeBootstrap ctx.config.requestTimeoutMs collab).1 ∧
    (handleRequest ctx now rate req collab).2.2 =
      some (executeBootstrap ctx.config.requestTimeoutMs collab).2 := by
  obtain ⟨⟨hp, hm, ha, hb, hc, hct, hr⟩, hlen, j, payload, hj, hv, hpath⟩ := h
  rcases hrc : rateCheck ctx.config.rateLimitPerMinute now rate with ⟨b, rate2⟩
  have hb2 : b = true := by rw [hrc] at hr; exact hr
  subst hb2
  rcases hex : executeBootstrap ctx.config.requestTimeoutMs collab with ⟨resp2, fate⟩
  simp [handleRequest, hp, hm, ha, hb, hc, hct, hrc, hj, hv, hpath, hex,
    not_lt.mpr hlen]

/-- The sample context, request and limiter state pass all nine gates. -/
lemma gatesPass_sample : gatesPass sampleCtx 0 RateState.init sampleReq :=
  ⟨⟨rfl, rfl, by decide, by decide, by decide, by decide, by decide⟩,
   by decide, sampleBody, ⟨"/tmp/work", ["echo hello"]⟩, rfl, rfl, rfl⟩

/-- C3: for every fully validated bootstrap request exactly one of three
outcomes occurs — the collaborator settles before the `requestTimeoutMs`
timer: 201 with the returned session identifier on fulfilment, 500 with
the collaborator error message on rejection; the timer fires first:
504, and the in-flight collaborator call is abandoned, not cancelled. -/
theorem bootstrap_executor_outcomes (ctx : ServerCtx) (now : Nat)
    (rate : RateState) (req : HttpRequest)
    (h : gatesPass ctx now rate req) :
    (∀ (t : Nat) (sid : String), (t : Int) < ctx.config.requestTimeoutMs →
      (handleRequest ctx now rate req (.resolves t sid)).1 =
        respond 201 (.sessionIdBody sid) ∧
      (handleRequest ctx now rate req (.resolves t sid)).2.2 =
        some .consumed) ∧
    (∀ (t : Nat) (msg : String), (t : Int) < ctx.config.requestTimeoutMs →
      (handleRequest ctx now rate req (.rejects t msg)).1 =
        respond 500 (.errorMsg msg) ∧
      (handleRequest ctx now rate req (.rejects t msg)).2.2 =
        some .consumed) ∧
    (∀ (t : Nat) (sid : String), ctx.config.requestTimeoutMs ≤ (t : Int) →
      (handleRequest ctx now rate req (.resolves t sid)).1 =
        respond 504 (.errorMsg "Bootstrap timed out") ∧
      (handleRequest ctx now rate req (.resolves t sid)).2.2 =
        some .abandoned) ∧
    (∀ (t : Nat) (msg : String), ctx.config.requestTimeoutMs ≤ (t : Int) →
      (handleRequest ctx now rate req (.rejects t msg)).1 =
        respond 504 (.errorMsg "Bootstrap timed out") ∧
      (handleRequest ctx now rate req (.rejects t msg)).2.2 =
        some .abandoned) ∧
    ((handleRequest ctx now rate req .never).1 =
        respond 504 (.errorMsg "Bootstrap timed out") ∧
      (handleRequest ctx now rate req .never).2.2 = some .abandoned) := by
  refine ⟨?_, ?_, ?_, ?_, ?_⟩
  · intro t sid hlt
    obtain ⟨e1, e2⟩ := handleRequest_validated ctx now rate req h (.resolves t sid)
    rw [e1, e2]
    simp [executeBootstrap, hlt]
  · intro t msg hlt
    obtain ⟨e1, e2⟩ := handleRequest_validated ctx now rate req h (.rejects t msg)
    rw [e1, e2]
    simp [executeBootstrap, hlt]
  · intro t sid hge
    obtain ⟨e1, e2⟩ := handleRequest_validated ctx now rate req h (.resolves t sid)
    rw [e1, e2]
    simp [executeBootstrap, not_lt.mpr hge]
  · intro t msg hge
    obtain ⟨e1, e2⟩ := handleRequest_validated ctx now rate req h (.rejects t msg)
    rw [e1, e2]
    simp [executeBootstrap, not_lt.mpr hge]
  · obtain ⟨e1, e2⟩ := handleRequest_validated ctx now rate req h .never
    rw [e1, e2]
    simp [executeBootstrap]

/-- Witness for C3 at concrete inputs: a collaborator settling at 5 ms
against a 20 000 ms timeout yields 201 or 500; one settling at 30 000 ms
yields 504 with the call abandoned. -/
theorem bootstrap_executor_outcomes_witness :
    (handleRequest sampleCtx 0 RateState.init sampleReq
        (.resolves 5 "test-session-123")).1 =
      respond 201 (.sessionIdBody "test-session-123") ∧
    (handleRequest sampleCtx 0 RateState.init sampleReq
        (.rejects 5 "Bootstrap failed")).1 =
      respond 500 (.errorMsg "Bootstrap failed") ∧
    (handleRequest sampleCtx 0 RateState.init sampleReq
        (.resolves 30000 "test-session-123")).1 =
      respond 504 (.errorMsg "Bootstrap timed out") ∧
    (handleRequest sampleCtx 0 RateState.init sampleReq
        (.resolves 30000 "test-session-123")).2.2 = some .abandoned :=
  have h := bootstrap_executor_outcomes sampleCtx 0 RateState.init sampleReq
    gatesPass_sample
  ⟨(h.1 5 "test-session-123" (by decide)).1,
   (h.2.1 5 "Bootstrap failed" (by decide)).1,
   (h.2.2.1 30000 "test-session-123" (by decide)).1,
   (h.2.2.1 30000 "test-session-123" (by decide)).2⟩

/-- C5: when the gates before body admission pass and the body exceeds
`maxRequestBytes`, the response is 413 — whatever `bodyJson` holds (even
`none`, an unparseable body) and whatever the collaborator would do: the
body is never parsed as structured data and the collaborator is never
invoked. -/
theorem oversized_body_rejected (ctx : ServerCtx) (now : Nat)
    (rate : RateState) (req : HttpRequest)
    (h : preBodyGatesPass ctx now rate req)
    (hlen : (req.bodyLen : Int) > ctx.config.maxRequestBytes) :
    ∀ collab : CollabOutcome,
      (handleRequest ctx now rate req collab).1 =
        respond 413 (.errorMsg "Request body too large") ∧
      (handleRequest ctx now rate req collab).2.2 = none := by
  obtain ⟨hp, hm, ha, hb, hc, hct, hr⟩ := h
  rcases hrc : rateCheck ctx.config.rateLimitPerMinute now rate with ⟨b, rate2⟩
  have hb2 : b = true := by rw [hrc] at hr; exact hr
  subst hb2
  intro collab
  simp [handleRequest, hp, hm, ha, hb, hc, hct, hrc, hlen]

/-- Witness for C5: a 300 000-byte body against the 262 144-byte limit is
answered 413 with the collaborator never invoked. -/
theorem oversized_body_rejected_witness :
    (handleRequest sampleCtx 0 RateState.init oversizedReq
        CollabOutcome.never).1 =
      respond 413 (.errorMsg "Request body too large") ∧
    (handleRequest sampleCtx 0 RateState.init oversizedReq
        CollabOutcome.never).2.2 = none :=
  oversized_body_rejected sampleCtx 0 RateState.init oversizedReq
    ⟨rfl, rfl, by decide, by decide, by decide, by decide, by decide⟩
    (by decide) CollabOutcome.never

/-- One allowed root admits the canonical cwd exactly when it
canonicalizes and the canonical cwd sits within the result. -/
lemma rootAdmits_iff (fs : FileSystem) (canon root : String) :
    rootAdmits fs canon root = true ↔
      ∃ canonRoot, fs.realpath root = some canonRoot ∧
        isPathWithin canon canonRoot = true := by
  unfold rootAdmits
  cases h : fs.realpath root <;> simp [h]

/-- Computation-shaped characterization of the accepting branch of
`assertPathAllowed`. -/
lemma assertPathAllowed_allowed_iff (fs : FileSystem) (cwd : String)
    (roots : List String) :
    assertPathAllowed fs cwd roots = .allowed ↔
      roots.isEmpty = false ∧
      (isAbsolutePath cwd && fs.isDirectory cwd) = true ∧
      ∃ canon, fs.realpath cwd = some canon ∧
        roots.any (rootAdmits fs canon) = true := by
  unfold assertPathAllowed
  repeat' split
  all_goals try simp_all
  rename_i hbad
  intro ha hd
  rcases hbad with h | h <;> simp_all

/-- C1: path authorization accepts a cwd iff it is an absolute path to an
existing directory whose canonical form (all symlinks resolved) equals
or is a separator-bounded descendant of some canonical allowed root; an
empty allowlist is answered with the service-unavailable signal; a cwd
resolving outside every allowed root is refused as forbidden, which the
pipeline renders as 403 (and the empty allowlist as 503). -/
theorem assertPathAllowed_correct (fs : FileSystem) (cwd : String)
    (roots : List String) :
    (assertPathAllowed fs cwd roots = .allowed ↔
      roots ≠ [] ∧ isAbsolutePath cwd = true ∧ fs.isDirectory cwd = true ∧
      ∃ canon, fs.realpath cwd = some canon ∧
        ∃ root ∈ roots, ∃ canonRoot, fs.realpath root = some canonRoot ∧
          isPathWithin canon canonRoot = true) ∧
    (roots = [] → assertPathAllowed fs cwd roots = .unavailable) ∧
    (∀ canon, roots ≠ [] → isAbsolutePath cwd = true →
      fs.isDirectory cwd = true → fs.realpath cwd = some canon →
      roots.any (rootAdmits fs canon) = false →
      assertPathAllowed fs cwd roots = .forbidden) ∧
    (∀ ctx now rate req collab,
      preBodyGatesPass ctx now rate req →
      (req.bodyLen : Int) ≤ ctx.config.maxRequestBytes →
      ∀ j payload, req.bodyJson = some j →
      validatePayload ctx.config j = .ok payload →
      (assertPathAllowed ctx.fs payload.cwd ctx.config.allowedRoots =
          .forbidden →
        (handleRequest ctx now rate req collab).1 =
          respond 403 (.errorMsg "cwd outside allowed roots")) ∧
      (assertPathAllowed ctx.fs payload.cwd ctx.config.allowedRoots =
          .unavailable →
        (handleRequest ctx now rate req collab).1 =
          respond 503 (.errorMsg "No allowed roots configured"))) := by
  refine ⟨?_, ?_, ?_, ?_⟩
  · rw [assertPathAllowed_allowed_iff]
    constructor
    · rintro ⟨hemp, hab, canon, hrp, hany⟩
      rw [Bool.and_eq_true] at hab
      rw [List.any_eq_true] at hany
      obtain ⟨root, hmem, hadm⟩ := hany
      obtain ⟨cr, hcr, hw⟩ := (rootAdmits_iff fs canon root).mp hadm
      refine ⟨?_, hab.1, hab.2, canon, hrp, root, hmem, cr, hcr, hw⟩
      intro hnil
      rw [hnil] at hemp
      cases hemp
    · rintro ⟨hne, h1, h2, canon, hrp, root, hmem, cr, hcr, hw⟩
      refine ⟨?_, by rw [h1, h2]; rfl, canon, hrp, ?_⟩
      · cases roots with
        | nil => exact absurd rfl hne
        | cons a l => rfl
      · rw [List.any_eq_true]
        exact ⟨root, hmem, (rootAdmits_iff fs canon root).mpr ⟨cr, hcr, hw⟩⟩
  · intro h
    subst h
    simp [assertPathAllowed]
  · intro canon hne h1 h2 hrp hany
    have hemp : roots.isEmpty = false := by
      cases roots with
      | nil => exact absurd rfl hne
      | cons a l => rfl
    simp [assertPathAllowed, hemp, h1, h2, hrp, hany]
  · intro ctx now rate req collab hpre hlen j payload hj hv
    obtain ⟨hp, hm, ha, hb, hc, hct, hr⟩ := hpre
    rcases hrc : rateCheck ctx.config.rateLimitPerMinute now rate with ⟨b, rate2⟩
    have hb2 : b = true := by rw [hrc] at hr; exact hr
    subst hb2
    constructor <;> intro hpath <;>
      simp [handleRequest, hp, hm, ha, hb, hc, hct, hrc, hj, hv, hpath,
        not_lt.mpr hlen]

/-- Witness for C1: the sample cwd equal to its allowed root is allowed;
an empty allowlist is unavailable; the symlink-escaping cwd is
forbidden. -/
theorem assertPathAllowed_correct_witness :
    assertPathAllowed sampleFs "/tmp/work" ["/tmp/work"] = .allowed ∧
    assertPathAllowed sampleFs "/tmp/work" [] = .unavailable ∧
    assertPathAllowed escapeFs "/tmp/work/link-out/project" ["/tmp/work"] =
      .forbidden :=
  ⟨(assertPathAllowed_correct sampleFs "/tmp/work" ["/tmp/work"]).1.mpr
    ⟨by decide, rfl, rfl, "/tmp/work", rfl, "/tmp/work", by decide,
     "/tmp/work", rfl, rfl⟩,
   (assertPathAllowed_correct sampleFs "/tmp/work" []).2.1 rfl,
   (assertPathAllowed_correct escapeFs "/tmp/work/link-out/project"
      ["/tmp/work"]).2.2.1 "/tmp/outside/project" (by decide) rfl rfl rfl
      (by decide)⟩

/-- Requests inside the window are all admitted while the counter stays
below the limit, and the counter tracks the number of admissions. -/
lemma runRate_admits (limit : Int) (w : Nat) (ts : List Nat) :
    ∀ c : Nat, (∀ t ∈ ts, t - w < 60000) →
      ((c : Int) + ts.length ≤ limit) →
      runRate limit ts ⟨c, w⟩ =
        (List.replicate ts.length true, ⟨c + ts.length, w⟩) := by
  induction ts with
  | nil => intro c _ _; simp [runRate]
  | cons t ts ih =>
    intro c hin hle
    simp only [List.length_cons] at hle
    push_cast at hle
    have ht : ¬ (60000 ≤ t - w) := by
      have := hin t (List.mem_cons_self t ts)
      omega
    have hc : (c : Int) < limit := by omega
    have hrec := ih (c + 1)
      (fun x hx => hin x (List.mem_cons_of_mem t hx))
      (by push_cast; omega)
    simp only [runRate, rateCheck, if_neg ht, if_pos hc, hrec]
    simp only [List.length_cons, List.replicate_succ, Prod.mk.injEq,
      RateState.mk.injEq]
    refine ⟨?_, by omega, ?_⟩ <;> first | rfl | trivial

/-- C6: at most `rateLimitPerMinute` requests are admitted per fixed
60-second window — every request of a batch of at most the limit within
the window is admitted; when the batch reaches the limit, one more
in-window request is refused (and the pipeline answers it 429); a
request arriving once the window age reaches 60 s resets the window
and is admitted; and `stop()` clears the limiter state. -/
theorem rate_limiter_window (limit : Int) (w : Nat) (ts : List Nat)
    (tN tR : Nat) (s : ServiceState)
    (hpos : 1 ≤ limit)
    (hin : ∀ t ∈ ts, t - w < 60000)
    (hle : (ts.length : Int) ≤ limit)
    (hN : tN - w < 60000) (hR : 60000 ≤ tR - w) :
    (runRate limit ts ⟨0, w⟩).1 = List.replicate ts.length true ∧
    ((ts.length : Int) = limit →
      rateCheck limit tN (runRate limit ts ⟨0, w⟩).2 =
        (false, (runRate limit ts ⟨0, w⟩).2)) ∧
    rateCheck limit tR (runRate limit ts ⟨0, w⟩).2 = (true, ⟨1, tR⟩) ∧
    (stopService s).rate = RateState.init ∧
    (∀ ctx now rate req collab,
      req.path = "/v1/terminal/bootstrap" → req.method = "POST" →
      authOk ctx.token req = true → browserIndicators req = false →
      clientIdOk req = true → contentTypeOk req = true →
      (rateCheck ctx.config.rateLimitPerMinute now rate).1 = false →
      (handleRequest ctx now rate req collab).1 =
        respond 429 (.errorMsg "Too many requests")) := by
  have hrun := runRate_admits limit w ts 0 hin (by push_cast; omega)
  refine ⟨by rw [hrun], ?_, ?_, rfl, ?_⟩
  · intro heq
    rw [hrun]
    have hcount : ¬ ((((0 + ts.length : Nat)) : Int) < limit) := by
      push_cast
      omega
    simp only [rateCheck, if_neg (by omega : ¬ (60000 ≤ tN - w)), if_neg hcount]
  · rw [hrun]
    simp only [rateCheck, if_pos hR]
    have : ((0 : Nat) : Int) < limit := by omega
    simp only [if_pos this]
  · intro ctx now rate req collab hp hm ha hb hc hct hrc
    rcases hrc2 : rateCheck ctx.config.rateLimitPerMinute now rate with ⟨b, rate2⟩
    have hb2 : b = false := by rw [hrc2] at hrc; exact hrc
    subst hb2
    simp [handleRequest, hp, hm, ha, hb, hc, hct, hrc2]

/-- Witness for C6: with limit 3, three requests in the window are
admitted, a fourth is refused, a request at 61 s is admitted afresh, the
stopped sample service has a cleared limiter, and a concrete over-limit
request is answered 429. -/
theorem rate_limiter_window_witness :
    (runRate 3 [0, 1, 2] ⟨0, 0⟩).1 = List.replicate 3 true ∧
    rateCheck 3 5 (runRate 3 [0, 1, 2] ⟨0, 0⟩).2 =
      (false, (runRate 3 [0, 1, 2] ⟨0, 0⟩).2) ∧
    rateCheck 3 61000 (runRate 3 [0, 1, 2] ⟨0, 0⟩).2 = (true, ⟨1, 61000⟩) ∧
    (stopService sampleService).rate = RateState.init ∧
    (handleRequest sampleCtx 0 ⟨60, 0⟩ sampleReq CollabOutcome.never).1 =
      respond 429 (.errorMsg "Too many requests") :=
  have h := rate_limiter_window 3 0 [0, 1, 2] 5 61000 sampleService
    (by decide) (by decide) (by decide) (by decide) (by decide)
  ⟨h.1, h.2.1 (by decide), h.2.2.1, h.2.2.2.1,
   h.2.2.2.2 sampleCtx 0 ⟨60, 0⟩ sampleReq CollabOutcome.never
     rfl rfl (by decide) (by decide) (by decide) (by decide) (by decide)⟩

/-- A single numeric field check errors exactly when the field is not an
integer in `[1, max]`. -/
lemma checkNumField_error_iff (fields : List (String × Json)) (k : String)
    (m : Int) :
    (∃ e, checkNumField fields k m = .error e) ↔
      numFieldOk fields k m = false := by
  unfold checkNumField
  by_cases h1 : numFieldIsInt fields k
  · by_cases h2 : numFieldOk fields k m <;> simp [h1, h2]
  · have h2 : numFieldOk fields k m = false := by
      unfold numFieldIsInt at h1
      unfold numFieldOk
      cases h : List.lookup k fields with
      | none => rfl
      | some j => cases j <;> simp_all
    simp [h1, h2]

/-- The chained numeric checks error exactly when some field violates its
bound. -/
lemma checkNumList_error_iff (fields : List (String × Json)) :
    ∀ l : List (String × Int),
      (∃ e, checkNumList fields l = .error e) ↔
        l.any (fun km => !(numFieldOk fields km.1 km.2)) = true := by
  intro l
  induction l with
  | nil => simp [checkNumList]
  | cons km rest ih =>
    simp only [checkNumList, List.any_cons]
    cases h : checkNumField fields km.1 km.2 with
    | error e =>
      have hbad : numFieldOk fields km.1 km.2 = false :=
        (checkNumField_error_iff fields km.1 km.2).mp ⟨e, h⟩
      simp [hbad]
    | ok u =>
      have hgood : numFieldOk fields km.1 km.2 = true := by
        by_contra hb
        obtain ⟨e, he⟩ := (checkNumField_error_iff fields km.1 km.2).mpr
          (by simpa using hb)
        rw [h] at he
        cases he
      simp [hgood, ih]

/-- Membership in the de-duplication fold. -/
lemma mem_dedupFoldl (xs : List String) :
    ∀ (acc : List String) (a : String),
      (a ∈ xs.foldl dedupStep acc ↔ a ∈ acc ∨ a ∈ xs) := by
  induction xs with
  | nil => intro acc a; simp
  | cons x xs ih =>
    intro acc a
    simp only [List.foldl_cons]
    rw [ih]
    unfold dedupStep
    by_cases hx : x ∈ acc
    · simp only [if_pos hx]
      constructor
      · rintro (h | h)
        · exact Or.inl h
        · exact Or.inr (List.mem_cons_of_mem x h)
      · rintro (h | h)
        · exact Or.inl h
        · rcases List.mem_cons.mp h with rfl | h2
          · exact Or.inl hx
          · exact Or.inr h2
    · simp only [if_neg hx, List.mem_append, List.mem_singleton,
        List.mem_cons]
      tauto

/-- The de-duplication fold preserves freedom from duplicates. -/
lemma nodup_dedupFoldl (xs : List String) :
    ∀ acc : List String, acc.Nodup → (xs.foldl dedupStep acc).Nodup := by
  induction xs with
  | nil => intro acc h; simpa
  | cons x xs ih =>
    intro acc h
    simp only [List.foldl_cons]
    unfold dedupStep
    by_cases hx : x ∈ acc
    · simpa [hx] using ih acc h
    · have hnd : (acc ++ [x]).Nodup := by
        rw [List.nodup_append]
        refine ⟨h, List.nodup_singleton x, ?_⟩
        intro a ha hax
        rw [List.mem_singleton] at hax
        subst hax
        exact hx ha
      simpa [hx] using ih (acc ++ [x]) hnd

/-- The validator errors exactly on the violation list of the spec. -/
lemma validateConfig_error_iff (j : Json) :
    (∃ e, validateConfig j = .error e) ↔ configViolation j = true := by
  cases j with
  | null => simp [validateConfig, configViolation]
  | bool b => simp [validateConfig, configViolation]
  | int n => simp [validateConfig, configViolation]
  | nonIntNum => simp [validateConfig, configViolation]
  | str s => simp [validateConfig, configViolation]
  | arr elems => simp [validateConfig, configViolation]
  | obj fields =>
    simp only [validateConfig, configViolation, checkNumFields]
    by_cases h1 : hasUnknownKey fields
    · simp [h1]
    · by_cases h2 : versionIs1 fields
      · by_cases h3 : enabledIsBool fields
        · by_cases h4 : rootsIsArray fields
          · by_cases h5 : rootEntriesAreStrings (rootsElems fields)
            · by_cases h6 : rootEntriesAreAbsolute (rootsElems fields)
              · cases hnum : checkNumList fields numericFieldMax with
                | error e =>
                  have hany := (checkNumList_error_iff fields
                    numericFieldMax).mp ⟨e, hnum⟩
                  simp [h1, h2, h3, h4, h5, h6, hnum, hany]
                | ok u =>
                  have hany : numericFieldMax.any
                      (fun km => !(numFieldOk fields km.1 km.2)) = false := by
                    by_contra hb
                    obtain ⟨e, he⟩ := (checkNumList_error_iff fields
                      numericFieldMax).mpr (by simpa using hb)
                    rw [hnum] at he
                    cases he
                  by_cases h7 :
                      (getEnabled fields && (rootsElems fields).isEmpty) = true
                  · simp [h1, h2, h3, h4, h5, h6, hnum, hany, h7]
                  · simp [h1, h2, h3, h4, h5, h6, hnum, hany, h7]
              · simp [h1, h2, h3, h4, h5, h6]
            · simp [h1, h2, h3, h4, h5]
          · simp [h1, h2, h3, h4]
        · simp [h1, h2, h3]
      · simp [h1, h2]

/-- On success the stored `allowedRoots` is the de-duplicated root list. -/
lemma validateConfig_ok_roots (fields : List (String × Json))
    (c : AutomationConfig)
    (hok : validateConfig (.obj fields) = .ok c) :
    c.allowedRoots = dedupFirst (rootStrings (rootsElems fields)) := by
  unfold validateConfig at hok
  by_cases h1 : hasUnknownKey fields
  · simp [h1] at hok
  · by_cases h2 : versionIs1 fields
    · by_cases h3 : enabledIsBool fields
      · by_cases h4 : rootsIsArray fields
        · by_cases h5 : rootEntriesAreStrings (rootsElems fields)
          · by_cases h6 : rootEntriesAreAbsolute (rootsElems fields)
            · cases hnum : checkNumFields fields with
              | error e => simp [h1, h2, h3, h4, h5, h6, hnum] at hok
              | ok u =>
                by_cases h7 :
                    (getEnabled fields && (rootsElems fields).isEmpty) = true
                · simp [h1, h2, h3, h4, h5, h6, hnum, h7] at hok
                · simp [h1, h2, h3, h4, h5, h6, hnum, h7] at hok
                  rw [← hok]
            · simp [h1, h2, h3, h4, h5, h6] at hok
          · simp [h1, h2, h3, h4, h5] at hok
        · simp [h1, h2, h3, h4] at hok
      · simp [h1, h2, h3] at hok
    · simp [h1, h2] at hok

/-- C7: config loading fails with a descriptive error exactly when a
present config file violates the schema (non-object value, unknown key,
version ≠ 1, non-boolean `enabled`, malformed `allowedRoots`, a numeric
field outside its `[1, max]` range or not an integer, or `enabled` with
empty `allowedRoots`); unparseable data is likewise fatal; on success
`allowedRoots` is de-duplicated (order of first occurrence, no
duplicates, same members); and every failure is fatal to `start()`: no
listener opens and no credentials are written. -/
theorem config_validation_correct (j : Json) (env : StartEnv) :
    ((∃ e, validateConfig j = .error e) ↔ configViolation j = true) ∧
    (∀ c, validateConfig j = .ok c →
      c.allowedRoots.Nodup ∧
      ∀ fields, j = .obj fields →
        c.allowedRoots = dedupFirst (rootStrings (rootsElems fields)) ∧
        ∀ r, (r ∈ c.allowedRoots ↔ r ∈ rootStrings (rootsElems fields))) ∧
    (env.dirIsSymlink = false → env.configIsSymlink = false →
      env.credsIsSymlink = false →
      (env.configFile = some none →
        (start env).result = .error .configParseError ∧
        FsEffect.openListener ∉ (start env).effects ∧
        FsEffect.writeCreds ∉ (start env).effects) ∧
      (∀ msg, env.configFile = some (some j) →
        validateConfig j = .error msg →
        (start env).result = .error (.configInvalid msg) ∧
        FsEffect.openListener ∉ (start env).effects ∧
        FsEffect.writeCreds ∉ (start env).effects)) := by
  refine ⟨validateConfig_error_iff j, ?_, ?_⟩
  · intro c hok
    constructor
    · cases j with
      | obj fields =>
        rw [validateConfig_ok_roots fields c hok]
        exact nodup_dedupFoldl _ [] List.nodup_nil
      | null => simp [validateConfig] at hok
      | bool b => simp [validateConfig] at hok
      | int n => simp [validateConfig] at hok
      | nonIntNum => simp [validateConfig] at hok
      | str s => simp [validateConfig] at hok
      | arr elems => simp [validateConfig] at hok
    · rintro fields rfl
      have hroots := validateConfig_ok_roots fields c hok
      refine ⟨hroots, ?_⟩
      intro r
      rw [hroots]
      unfold dedupFirst
      rw [mem_dedupFoldl]
      simp
  · intro hd hc hcr
    constructor
    · intro hcf
      simp [start, hd, hc, hcr, hcf]
    · intro msg hcf hverr
      simp [start, hd, hc, hcr, hcf, hverr]

/-- Witness for C7: the sample config (with a duplicated root) validates
with the duplicate removed; a version-2 config is refused; an
unparseable config file is fatal to `start()` with no listener. -/
theorem config_validation_correct_witness :
    (∃ e, validateConfig badVersionConfig = .error e) ∧
    (∀ c, validateConfig sampleJsonConfig = .ok c → c.allowedRoots.Nodup) ∧
    ((start unparseableEnv).result = .error .configParseError) :=
  ⟨(config_validation_correct badVersionConfig symlinkedEnv).1.mpr (by decide),
   fun c hok =>
     ((config_validation_correct sampleJsonConfig symlinkedEnv).2.1 c hok).1,
   (((config_validation_correct sampleJsonConfig
        unparseableEnv).2.2 rfl rfl rfl).1 rfl).1⟩

end Claudedidwhat

namespace ApiServer

/-- Deleting a request id removes it from the pending map entirely. -/
lemma lookup_deletePending (s : St) (requestId : String) :
    lookupPending (deletePending s requestId) requestId = none := by
  unfold lookupPending deletePending
  induction s.pendingRequests with
  | nil => rfl
  | cons kv l ih =>
    by_cases h : kv.1 = requestId
    · simpa [List.filter_cons, h] using ih
    · have hbne : (kv.1 != requestId) = true := by simp [bne_iff_ne, h]
      have hbeq : (requestId == kv.1) = false :=
        beq_eq_false_iff_ne.mpr fun he => h he.symm
      simp [List.filter_cons, hbne, List.lookup, hbeq, ih]

/-- Stopping emits no completion for an id that is not pending. -/
lemma completionsFor_stop_not_mem (requestId : String) :
    ∀ l : List (String × Nat), requestId ∉ l.map Prod.fst →
      completionsFor requestId (l.flatMap stopEvents) = [] := by
  intro l
  induction l with
  | nil => intro _; rfl
  | cons kv l ih =>
    intro hmem
    simp only [List.map_cons, List.mem_cons] at hmem
    push_neg at hmem
    simp only [List.flatMap_cons, completionsFor, List.filter_append]
    rw [← completionsFor, ← completionsFor]
    have hbeq : (kv.1 == requestId) = false :=
      beq_eq_false_iff_ne.mpr (Ne.symm hmem.1)
    have h1 : completionsFor requestId (stopEvents kv) = [] := by
      unfold completionsFor stopEvents
      simp [hbeq]
    rw [h1, ih hmem.2, List.nil_append]

/-- Stopping emits exactly one rejection for each pending id. -/
lemma completionsFor_stop_mem (requestId : String) (t : Nat) :
    ∀ l : List (String × Nat), (l.map Prod.fst).Nodup →
      (requestId, t) ∈ l →
      completionsFor requestId (l.flatMap stopEvents) =
        [Event.rejected requestId "Server shutting down"] := by
  intro l
  induction l with
  | nil => intro _ h; cases h
  | cons kv l ih =>
    intro hnd hmem
    simp only [List.map_cons, List.nodup_cons] at hnd
    simp only [List.flatMap_cons, completionsFor, List.filter_append]
    rw [← completionsFor, ← completionsFor]
    rcases List.mem_cons.mp hmem with rfl | hmem2
    · have h1 : completionsFor requestId (stopEvents (requestId, t)) =
          [Event.rejected requestId "Server shutting down"] := by
        unfold completionsFor stopEvents
        simp
      have h2 : completionsFor requestId (l.flatMap stopEvents) = [] := by
        apply completionsFor_stop_not_mem
        simpa using hnd.1
      rw [h1, h2, List.append_nil]
    · have hne : kv.1 ≠ requestId := by
        intro he
        exact hnd.1 (he ▸ (List.mem_map.mpr ⟨(requestId, t), hmem2, he ▸ rfl⟩))
      have hbeq : (kv.1 == requestId) = false :=
        beq_eq_false_iff_ne.mpr hne
      have h1 : completionsFor requestId (stopEvents kv) = [] := by
        unfold completionsFor stopEvents
        simp [hbeq]
      rw [h1, ih hnd.2 hmem2, List.nil_append]

/-- C10: every pending bootstrap request is completed at most once — a
completion call with an absent id changes no state and emits nothing;
with a present id it removes the id before invoking the continuation, so
any second completion of the same id is a no-op; and `stop()` rejects
each still-pending request exactly once and clears the map, so a second
`stop()` emits nothing. -/
theorem pending_completed_at_most_once (s : St)
    (requestId sid sid2 msg msg2 : String) :
    (lookupPending s requestId = none →
      resolveSessionRequest s requestId sid = (s, []) ∧
      rejectSessionRequest s requestId msg = (s, [])) ∧
    (∀ t, lookupPending s requestId = some t →
      (resolveSessionRequest s requestId sid).2 =
        [.timerCleared t, .resolved requestId sid] ∧
      lookupPending (resolveSessionRequest s requestId sid).1 requestId =
        none ∧
      (rejectSessionRequest s requestId msg).2 =
        [.timerCleared t, .rejected requestId msg] ∧
      lookupPending (rejectSessionRequest s requestId msg).1 requestId =
        none) ∧
    (resolveSessionRequest (resolveSessionRequest s requestId sid).1
        requestId sid2 =
      ((resolveSessionRequest s requestId sid).1, []) ∧
     rejectSessionRequest (resolveSessionRequest s requestId sid).1
        requestId msg =
      ((resolveSessionRequest s requestId sid).1, []) ∧
     rejectSessionRequest (rejectSessionRequest s requestId msg).1
        requestId msg2 =
      ((rejectSessionRequest s requestId msg).1, []) ∧
     resolveSessionRequest (rejectSessionRequest s requestId msg).1
        requestId sid =
      ((rejectSessionRequest s requestId msg).1, [])) ∧
    ((stop s).1.pendingRequests = [] ∧
     stop (stop s).1 = (⟨[]⟩, []) ∧
     ((s.pendingRequests.map Prod.fst).Nodup →
       ∀ id t, (id, t) ∈ s.pendingRequests →
         completionsFor id (stop s).2 =
           [.rejected id "Server shutting down"])) := by
  refine ⟨?_, ?_, ?_, ?_⟩
  · intro h
    simp [resolveSessionRequest, rejectSessionRequest, h]
  · intro t h
    simp [resolveSessionRequest, rejectSessionRequest, h,
      lookup_deletePending]
  · cases hl : lookupPending s requestId with
    | none =>
      simp [resolveSessionRequest, rejectSessionRequest, hl]
    | some t =>
      have h2 := lookup_deletePending s requestId
      simp [resolveSessionRequest, rejectSessionRequest, hl, h2]
  · refine ⟨rfl, rfl, ?_⟩
    intro hnd id t hmem
    exact completionsFor_stop_mem id t s.pendingRequests hnd hmem

/-- Witness for C10: completing `req-1` removes it and emits one
completion; completing it again emits nothing; `stop` on the sample map
rejects `req-2` exactly once and empties the map. -/
theorem pending_completed_at_most_once_witness :
    (resolveSessionRequest samplePending "req-1" "sess-9").2 =
      [.timerCleared 11, .resolved "req-1" "sess-9"] ∧
    resolveSessionRequest (resolveSessionRequest samplePending "req-1"
        "sess-9").1 "req-1" "sess-10" =
      ((resolveSessionRequest samplePending "req-1" "sess-9").1, []) ∧
    (stop samplePending).1.pendingRequests = [] ∧
    completionsFor "req-2" (stop samplePending).2 =
      [.rejected "req-2" "Server shutting down"] :=
  have h := pending_completed_at_most_once samplePending
    "req-1" "sess-9" "sess-10" "m1" "m2"
  ⟨(h.2.1 11 (by decide)).1, h.2.2.1.1, h.2.2.2.1,
   h.2.2.2.2.2 (by decide) "req-2" 12 (by decide)⟩

end ApiServer
